import Mathlib

/-!
Verification development for the desktop layout engine of the Anodium compositor.

The definitions below are a shallow embedding of the Rust sources:
  * src/src/shell/mod.rs            — the commit-driven mapping pipeline (surface_commit)
  * src/src/desktop_layout/layer_map.rs — the layer-shell map (LayerMap, LayerSurface)
  * src/src/positioner/universal.rs — the Universal positioner dispatcher

Machine integers (i32, u32) are modelled as Int and Nat; the source never relies on
overflow in the fragments embedded here.  Rust truncating division on i32 is Int.tdiv.
A wl_surface is identified by a natural number id; a surface tree is an inductive tree
whose nodes carry the per-surface state (SurfaceData) and the cached protocol
attributes read by the source.  Definitions whose Rust source file is not part of the
provided sources are marked "Modelled from the spec" in their doc comment.
-/

namespace Anodium

/-- A point in logical coordinates, Point of i32 Logical. -/
structure Point where
  x : Int
  y : Int
deriving DecidableEq

/-- A size in logical coordinates, Size of i32 Logical. -/
structure Size where
  w : Int
  h : Int
deriving DecidableEq

/-- A rectangle in logical coordinates: a location and a size. -/
structure Rectangle where
  loc : Point
  size : Size
deriving DecidableEq

instance : Add Point := ⟨fun a b => ⟨a.x + b.x, a.y + b.y⟩⟩

instance : Sub Point := ⟨fun a b => ⟨a.x - b.x, a.y - b.y⟩⟩

/-- Rectangle.merge of smithay: the smallest rectangle containing both. -/
def Rectangle.merge (a b : Rectangle) : Rectangle :=
  let x := min a.loc.x b.loc.x
  let y := min a.loc.y b.loc.y
  let x2 := max (a.loc.x + a.size.w) (b.loc.x + b.size.w)
  let y2 := max (a.loc.y + a.size.h) (b.loc.y + b.size.h)
  ⟨⟨x, y⟩, ⟨x2 - x, y2 - y⟩⟩

/-- Rectangle.contains of smithay: membership of a point (inclusive at loc,
exclusive at loc + size). -/
def Rectangle.containsPt (r : Rectangle) (p : Point) : Bool :=
  decide (r.loc.x ≤ p.x) && decide (p.x < r.loc.x + r.size.w) &&
  decide (r.loc.y ≤ p.y) && decide (p.y < r.loc.y + r.size.h)

/-- Resize edge bitflags of src/src/shell/surface_data.rs (TOP, BOTTOM, LEFT, RIGHT). -/
structure ResizeEdge where
  top : Bool
  bottom : Bool
  left : Bool
  right : Bool
deriving DecidableEq

/-- Bitflag intersection test: the two flag sets share at least one edge. -/
def ResizeEdge.intersects (a b : ResizeEdge) : Bool :=
  (a.top && b.top) || (a.bottom && b.bottom) || (a.left && b.left) || (a.right && b.right)

/-- The TOP edge flag. -/
def ResizeEdge.TOP : ResizeEdge := ⟨true, false, false, false⟩

/-- The LEFT edge flag. -/
def ResizeEdge.LEFT : ResizeEdge := ⟨false, false, true, false⟩

/-- The TOP_LEFT flag set, the union of TOP and LEFT. -/
def ResizeEdge.TOP_LEFT : ResizeEdge := ⟨true, false, true, false⟩

/-- ResizeData of src/src/shell/surface_data.rs: the edges being dragged and the
window location and size captured when the resize began. -/
structure ResizeData where
  edges : ResizeEdge
  initial_window_location : Point
  initial_window_size : Size
deriving DecidableEq

/-- ResizeState of src/src/shell/surface_data.rs (used by surface_commit,
src/src/shell/mod.rs lines 158..189). -/
inductive ResizeState where
  | NotResizing
  | Resizing (data : ResizeData)
  | WaitingForFinalAck (data : ResizeData) (serial : Nat)
  | WaitingForCommit (data : ResizeData)
deriving DecidableEq

/-- MoveAfterResizeData: the scheduled target location of a post-resize move. -/
structure MoveAfterResizeData where
  target_window_location : Point
deriving DecidableEq

/-- MoveAfterResizeState of src/src/shell/surface_data.rs: absent, waiting for the
next commit, or current. -/
inductive MoveAfterResizeState where
  | None
  | WaitingForCommit (data : MoveAfterResizeData)
  | Current (data : MoveAfterResizeData)
deriving DecidableEq

/-- SurfaceData, the per-surface state record of src/src/shell/surface_data.rs:
the dimensions of the currently attached buffer (none meaning unmapped for
rendering), the resize state and the move-after-resize state. -/
structure SurfaceData where
  buffer_dim : Option Size
  resize_state : ResizeState
  move_after_resize_state : MoveAfterResizeState
deriving DecidableEq

/-- Modelled from the spec (src/src/shell/surface_data.rs is not among the provided
sources): SurfaceData::update_buffer propagates the attached-buffer dimensions of the
commit into the per-surface state. -/
def SurfaceData.update_buffer (d : SurfaceData) (attached : Option Size) : SurfaceData :=
  { d with buffer_dim := attached }

/-- Modelled from the spec: SurfaceData::size returns the dimensions of the attached
buffer, none when the surface is unmapped for rendering. -/
def SurfaceData.size (d : SurfaceData) : Option Size :=
  d.buffer_dim

/-- Modelled from the spec: SurfaceData::contains_point — the hit test "visits nodes
looking for the first whose local geometry contains a target point"; the local
geometry of a node is its attached-buffer rectangle at the local origin. -/
def SurfaceData.contains_point (d : SurfaceData) (q : Point) : Bool :=
  match d.buffer_dim with
  | none => false
  | some s => Rectangle.containsPt ⟨⟨0, 0⟩, s⟩ q

/-- A wl_surface together with its transitively attached sub-surfaces: each node
carries the surface id, the attached-buffer size pending in SurfaceAttributes, the
cached sub-surface relative position (meaningful when the node is a sub-surface),
the per-surface SurfaceData record, and the child sub-surfaces. -/
inductive SurfNode where
  | mk (sid : Nat) (attached : Option Size) (subLoc : Point) (data : SurfaceData)
      (children : List SurfNode)

/-- The surface id at the root of a tree. -/
def SurfNode.sid : SurfNode → Nat
  | .mk s _ _ _ _ => s

/-- The attached-buffer size pending at the root of a tree. -/
def SurfNode.attached : SurfNode → Option Size
  | .mk _ a _ _ _ => a

/-- The per-surface state record at the root of a tree. -/
def SurfNode.data : SurfNode → SurfaceData
  | .mk _ _ _ d _ => d

/-- The child sub-surfaces at the root of a tree. -/
def SurfNode.children : SurfNode → List SurfNode
  | .mk _ _ _ _ cs => cs

/-- Replace the per-surface state record at the root of a tree. -/
def SurfNode.setData (n : SurfNode) (d : SurfaceData) : SurfNode :=
  match n with
  | .mk s a sl _ cs => .mk s a sl d cs

mutual
/-- The buffer-refresh walk of surface_commit, src/src/shell/mod.rs lines 58..74:
with_surface_tree_upward whose filter always answers DoChildren (line 61), so every
node of the tree is visited, and whose processor runs update_buffer on the node
(lines 62..72).  No subtree is ever skipped by this walk. -/
def bufferRefreshWalk : SurfNode → SurfNode
  | .mk s a sl d cs => .mk s a sl (d.update_buffer a) (bufferRefreshWalkList cs)

/-- The buffer-refresh walk over a list of sibling subtrees, in order. -/
def bufferRefreshWalkList : List SurfNode → List SurfNode
  | [] => []
  | n :: ns => bufferRefreshWalk n :: bufferRefreshWalkList ns
end

mutual
/-- All nodes of a tree in depth-first pre-order, as (surface id, attached buffer,
per-surface state) triples. -/
def allNodes : SurfNode → List (Nat × Option Size × SurfaceData)
  | .mk s a _ d cs => (s, a, d) :: allNodesList cs

/-- All nodes of a list of sibling subtrees, in order. -/
def allNodesList : List SurfNode → List (Nat × Option Size × SurfaceData)
  | [] => []
  | n :: ns => allNodes n ++ allNodesList ns
end

mutual
/-- The bounding-box recompute walk of LayerSurface::self_update,
src/src/desktop_layout/layer_map.rs lines 77..102: a node with no buffer
(SurfaceData::size none) skips its whole subtree; otherwise the sub-surface relative
position is added for sub-surface nodes (isSub) and the buffer rectangle at the
accumulated location is merged into the accumulator. -/
def bboxWalk (isSub : Bool) (loc : Point) (acc : Rectangle) : SurfNode → Rectangle
  | .mk _ _ sl d cs =>
    match d.size with
    | none => acc
    | some s =>
      let loc2 := if isSub then loc + sl else loc
      bboxWalkList loc2 (acc.merge ⟨loc2, s⟩) cs

/-- The bounding-box walk threaded left to right over sibling subtrees. -/
def bboxWalkList (loc : Point) (acc : Rectangle) : List SurfNode → Rectangle
  | [] => acc
  | n :: ns => bboxWalkList loc (bboxWalk true loc acc n) ns
end

/-- The bounding box of a surface tree rooted at a given location: the walk starts
from the zero-size rectangle at the location (layer_map.rs line 75). -/
def computeBBox (location : Point) (t : SurfNode) : Rectangle :=
  bboxWalk false location ⟨location, ⟨0, 0⟩⟩ t

mutual
/-- The hit-test walk of LayerSurface::matching, layer_map.rs lines 40..69: visit
nodes in pre-order, adding the sub-surface relative position for sub-surface nodes,
record the first node whose SurfaceData::contains_point holds for the point minus
the accumulated location, and stop as soon as one is found. -/
def hitWalk (p : Point) (isSub : Bool) (loc : Point) : SurfNode → Option (Nat × Point)
  | .mk s _ sl d cs =>
    let loc2 := if isSub then loc + sl else loc
    if d.contains_point (p - loc2) then some (s, loc2)
    else hitWalkList p loc2 cs

/-- The hit-test walk over sibling subtrees: first match wins. -/
def hitWalkList (p : Point) (loc : Point) : List SurfNode → Option (Nat × Point)
  | [] => none
  | n :: ns =>
    match hitWalk p true loc n with
    | some r => some r
    | none => hitWalkList p loc ns
end

/-- The wlr_layer::Layer tier of a layer surface, ordered bottom to top. -/
inductive Layer where
  | Background
  | Bottom
  | Top
  | Overlay
deriving DecidableEq

/-- The wlr_layer::Anchor bitflag set (LEFT, RIGHT, TOP, BOTTOM edges). -/
structure Anchor where
  left : Bool
  right : Bool
  top : Bool
  bottom : Bool
deriving DecidableEq

/-- Bitflag containment: every edge of the argument is present. -/
def Anchor.contains (a b : Anchor) : Bool :=
  (!b.left || a.left) && (!b.right || a.right) && (!b.top || a.top) && (!b.bottom || a.bottom)

/-- Bitflag union of two anchor sets. -/
def Anchor.union (a b : Anchor) : Anchor :=
  ⟨a.left || b.left, a.right || b.right, a.top || b.top, a.bottom || b.bottom⟩

/-- The LEFT anchor flag. -/
def Anchor.LEFT : Anchor := ⟨true, false, false, false⟩

/-- The RIGHT anchor flag. -/
def Anchor.RIGHT : Anchor := ⟨false, true, false, false⟩

/-- The TOP anchor flag. -/
def Anchor.TOP : Anchor := ⟨false, false, true, false⟩

/-- The BOTTOM anchor flag. -/
def Anchor.BOTTOM : Anchor := ⟨false, false, false, true⟩

/-- The wlr_layer::ExclusiveZone request of a layer surface. -/
inductive ExclusiveZone where
  | Exclusive (v : Nat)
  | Neutral
  | DontCare
deriving DecidableEq

/-- LayerSurfaceCachedState: the cached protocol attributes of a layer surface read
by arange and self_update (requested size, anchor set, exclusive zone, tier). -/
structure LayerSurfaceCachedState where
  size : Size
  anchor : Anchor
  exclusive_zone : ExclusiveZone
  layer : Layer
deriving DecidableEq

/-- The protocol-level layer surface handle: whether the underlying surface is
still alive, the surface tree behind get_surface (none when the surface is gone),
and the cached protocol attributes. -/
structure LayerSurfaceHandle where
  alive : Bool
  tree : Option SurfNode
  cached : LayerSurfaceCachedState

/-- LayerSurface of src/src/desktop_layout/layer_map.rs lines 22..28: the protocol
handle plus the stored location, bounding box and tier, extended with the pending
size written by arange through with_pending_state (lines 237..242). -/
structure LayerSurface where
  handle : LayerSurfaceHandle
  location : Point
  bbox : Rectangle
  layer : Layer
  pending_size : Option Size

/-- LayerSurface::self_update, layer_map.rs lines 74..113: recompute the bounding
box by the tree walk starting from the zero-size rectangle at the stored location
(no walk runs when get_surface is none, leaving the zero-size rectangle), then
re-read the tier from the cached state when the surface is present. -/
def LayerSurface.self_update (l : LayerSurface) : LayerSurface :=
  let bb := match l.handle.tree with
    | none => ⟨l.location, ⟨0, 0⟩⟩
    | some t => computeBBox l.location t
  match l.handle.tree with
  | none => { l with bbox := bb }
  | some _ => { l with bbox := bb, layer := l.handle.cached.layer }

/-- LayerSurface::matching, layer_map.rs lines 33..72: nothing matches outside the
bounding box; otherwise the hit-test walk over the surface tree finds the topmost
surface under the point together with its accumulated location. -/
def LayerSurface.matching (l : LayerSurface) (p : Point) : Option (Nat × Point) :=
  if !(l.bbox.containsPt p) then none
  else
    match l.handle.tree with
    | none => none
    | some t => hitWalk p false l.location t

/-- LayerExclusiveZone, layer_map.rs lines 14..20: the four per-edge accumulators. -/
structure LayerExclusiveZone where
  top : Nat
  bottom : Nat
  left : Nat
  right : Nat
deriving DecidableEq

/-- LayerMap, layer_map.rs lines 134..138: the ordered collection of layer surfaces
together with the exclusive-zone accumulators. -/
structure LayerMap where
  surfaces : List LayerSurface
  exclusive_zone : LayerExclusiveZone

/-- LayerMap::insert, layer_map.rs lines 147..156: wrap the handle with default
location and bounding box and the given tier, run self_update once, and insert the
result at the front of the collection. -/
def LayerMap.insert (m : LayerMap) (surface : LayerSurfaceHandle) (layer : Layer) : LayerMap :=
  let l : LayerSurface :=
    { handle := surface
      location := ⟨0, 0⟩
      bbox := ⟨⟨0, 0⟩, ⟨0, 0⟩⟩
      layer := layer
      pending_size := none }
  let l := l.self_update
  { m with surfaces := l :: m.surfaces }

/-- LayerMap::get_surface_under, layer_map.rs lines 158..169: iterate the surfaces
of the given tier in collection order and return the first match. -/
def LayerMap.get_surface_under (m : LayerMap) (layer : Layer) (p : Point) :
    Option (Nat × Point) :=
  (m.surfaces.filter (fun s => s.layer == layer)).findSome? (fun l => l.matching p)

/-- LayerMap::with_layers_from_bottom_to_top, layer_map.rs lines 171..178, rendered
as the list of surfaces the callback visits, in visit order: the surfaces of the
tier in reverse collection order. -/
def LayerMap.layers_from_bottom_to_top (m : LayerMap) (layer : Layer) : List LayerSurface :=
  (m.surfaces.filter (fun s => s.layer == layer)).reverse

/-- LayerMap::refresh, layer_map.rs lines 180..186: retain the layer surfaces whose
underlying surface is alive, then run self_update on every survivor. -/
def LayerMap.refresh (m : LayerMap) : LayerMap :=
  { m with
    surfaces := (m.surfaces.filter (fun l => l.handle.alive)).map LayerSurface.self_update }

/-- LayerMap::find, layer_map.rs lines 190..202: the first layer surface whose
underlying wl_surface equals the given one (by root surface id). -/
def LayerMap.find (m : LayerMap) (sid : Nat) : Option LayerSurface :=
  m.surfaces.findSome? (fun l =>
    match l.handle.tree with
    | some t => if t.sid == sid then some l else none
    | none => none)

/-- The body of the arange loop, layer_map.rs lines 207..283, for one layer surface:
a surface whose get_surface is none is left untouched (continue, line 211);
otherwise the location is computed from the cached anchor set and requested size
(lines 219..235), the pending size is set to the output size and a configure is sent
(lines 237..244), the location is stored (line 246), and the exclusive-zone
accumulators receive the declared exclusive thickness under the eight recognized
anchor patterns (lines 248..282). -/
def arangeStep (output_rect : Rectangle) (ez : LayerExclusiveZone) (layer : LayerSurface) :
    LayerExclusiveZone × LayerSurface :=
  match layer.handle.tree with
  | none => (ez, layer)
  | some _ =>
    let data := layer.handle.cached
    let x : Int :=
      if data.size.w == 0 || data.anchor.contains Anchor.LEFT then
        output_rect.loc.x
      else if data.anchor.contains Anchor.RIGHT then
        output_rect.loc.x + (output_rect.size.w - data.size.w)
      else
        output_rect.loc.x + (Int.tdiv output_rect.size.w 2 - Int.tdiv data.size.w 2)
    let y : Int :=
      if data.size.h == 0 || data.anchor.contains Anchor.TOP then
        output_rect.loc.y
      else if data.anchor.contains Anchor.BOTTOM then
        output_rect.loc.y + (output_rect.size.h - data.size.h)
      else
        output_rect.loc.y + (Int.tdiv output_rect.size.h 2 - Int.tdiv data.size.h 2)
    let layer := { layer with pending_size := some output_rect.size, location := ⟨x, y⟩ }
    let ez :=
      match data.exclusive_zone with
      | .Exclusive v =>
        let anchor := data.anchor
        let ez := if anchor = Anchor.TOP then { ez with top := ez.top + v } else ez
        let ez := if anchor = (Anchor.TOP.union (Anchor.LEFT.union Anchor.RIGHT)) then
          { ez with top := ez.top + v } else ez
        let ez := if anchor = Anchor.BOTTOM then { ez with bottom := ez.bottom + v } else ez
        let ez := if anchor = (Anchor.BOTTOM.union (Anchor.LEFT.union Anchor.RIGHT)) then
          { ez with bottom := ez.bottom + v } else ez
        let ez := if anchor = Anchor.LEFT then { ez with left := ez.left + v } else ez
        let ez := if anchor = (Anchor.LEFT.union (Anchor.BOTTOM.union Anchor.TOP)) then
          { ez with left := ez.left + v } else ez
        let ez := if anchor = Anchor.RIGHT then { ez with right := ez.right + v } else ez
        let ez := if anchor = (Anchor.RIGHT.union (Anchor.BOTTOM.union Anchor.TOP)) then
          { ez with right := ez.right + v } else ez
        ez
      | _ => ez
    (ez, layer)

/-- One iteration of the arange loop threaded through a fold: the accumulators and
the surfaces already processed, extended by the loop body on the next surface. -/
def arangeFoldFun (output_rect : Rectangle) (acc : LayerExclusiveZone × List LayerSurface)
    (l : LayerSurface) : LayerExclusiveZone × List LayerSurface :=
  let p := arangeStep output_rect acc.1 l
  (p.1, acc.2 ++ [p.2])

/-- LayerMap::arange, layer_map.rs lines 204..284: reset the exclusive-zone
accumulators to their default (all zero, line 205), then run the loop body over
every layer surface in collection order, threading the accumulators. -/
def LayerMap.arange (m : LayerMap) (output_rect : Rectangle) : LayerMap :=
  let r := m.surfaces.foldl (arangeFoldFun output_rect) (⟨0, 0, 0, 0⟩, [])
  { surfaces := r.2, exclusive_zone := r.1 }

/-- Toplevel of src/src/desktop_layout: a shell-protocol (Xdg) toplevel or a legacy
X11 toplevel, identified by an id. -/
inductive Toplevel where
  | Xdg (id : Nat)
  | X11 (id : Nat)
deriving DecidableEq

/-- XdgToplevelSurfaceRoleAttributes as read by surface_commit, src/src/shell/mod.rs
lines 86..95 and 105..114: whether the initial configure was sent and whether the
protocol reports the toplevel configured. -/
structure XdgAttrs where
  initial_configure_sent : Bool
  configured : Bool
deriving DecidableEq

/-- Modelled from the spec (the Window type of src/src/desktop_layout/window.rs is
not among the provided sources): the desktop-level wrapper around a Toplevel, with a
location, a bounding box computed by unioning its own and all descendant
sub-surface geometry, the surface tree of its toplevel surface, and the Xdg role
attributes of that surface (meaningful for shell-protocol toplevels). -/
structure Window where
  toplevel : Toplevel
  location : Point
  bbox : Rectangle
  tree : SurfNode
  xdg_attrs : XdgAttrs

/-- Modelled from the spec: Window::self_update recomputes the bounding box by
re-walking the surface tree, with the same walk as LayerSurface::self_update. -/
def Window.self_update (w : Window) : Window :=
  { w with bbox := computeBBox w.location w.tree }

/-- Modelled from the spec: Window::geometry returns the recomputed bounding box
(surface_commit reads its size at src/src/shell/mod.rs line 101 and line 146). -/
def Window.geometry (w : Window) : Rectangle :=
  w.bbox

/-- Modelled from the spec: Toplevel::send_configure marks the initial configure of
the surface as sent (called at src/src/shell/mod.rs line 97). -/
def Window.send_configure (w : Window) : Window :=
  { w with xdg_attrs := { w.xdg_attrs with initial_configure_sent := true } }

/-- A workspace: its set of mapped windows, in mapping order. -/
structure Workspace where
  mapped : List Window

/-- The desktop state threaded through surface_commit: the pending-map registry
(NotMappedList), the visible workspaces (the active one first), and the currently
grabbed window if any. -/
structure CommitState where
  not_mapped : List Window
  workspaces : List Workspace
  grabbed : Option Window

/-- Modelled from the spec (src/src/shell/not_mapped_list.rs is not among the
provided sources): NotMappedList::find looks the pending window up by its
underlying surface. -/
def findPending (l : List Window) (sid : Nat) : Option Window :=
  l.find? (fun w => w.tree.sid == sid)

/-- Replace the first window with the given root surface id, mirroring a mutation
through find_mut. -/
def replaceFirst (sid : Nat) (w2 : Window) : List Window → List Window
  | [] => []
  | w :: ws => if w.tree.sid == sid then w2 :: ws else w :: replaceFirst sid w2 ws

/-- Modelled from the spec: NotMappedList::remove extracts the first pending window
with the given toplevel, returning it together with the remaining registry. -/
def removeByToplevel (t : Toplevel) : List Window → Option Window × List Window
  | [] => (none, [])
  | w :: ws =>
    if w.toplevel = t then (some w, ws)
    else
      let r := removeByToplevel t ws
      (r.1, w :: r.2)

/-- Modelled from the spec: Workspace::map_toplevel inserts the window into the
mapped set of the workspace. -/
def Workspace.map_toplevel (ws : Workspace) (w : Window) : Workspace :=
  { ws with mapped := ws.mapped ++ [w] }

/-- The first half of the pending-map block of surface_commit, src/src/shell/mod.rs
lines 81..99, on the found pending window: run self_update, and for an Xdg toplevel
send the initial configure if it was not sent yet. -/
def processedPending (w : Window) : Window :=
  let w1 := w.self_update
  match w1.toplevel with
  | .Xdg _ => if !w1.xdg_attrs.initial_configure_sent then w1.send_configure else w1
  | .X11 _ => w1

/-- The pending-map block of surface_commit, src/src/shell/mod.rs lines 77..137:
look the committed surface up in the registry; process it (self_update and, for an
Xdg toplevel, the initial configure); then, if the recomputed geometry has non-zero
width and height and (for Xdg) the protocol reports configured (a legacy X11
toplevel needs no ack), remove the window from the registry and map it into the
active workspace (the first visible one). -/
def pendingMapStep (sid : Nat) (st : CommitState) : CommitState :=
  match findPending st.not_mapped sid with
  | none => st
  | some win0 =>
    let win2 := processedPending win0
    let nm := replaceFirst sid win2 st.not_mapped
    let size := win2.geometry.size
    let promote : Bool :=
      decide (size.w ≠ 0) && decide (size.h ≠ 0) &&
      (match win2.toplevel with
       | .Xdg _ => win2.xdg_attrs.configured
       | .X11 _ => true)
    if promote then
      let r := removeByToplevel win2.toplevel nm
      match r.1 with
      | some win =>
        { st with
          not_mapped := r.2
          workspaces :=
            match st.workspaces with
            | [] => []
            | ws :: wss => ws.map_toplevel win :: wss }
      | none => { st with not_mapped := r.2 }
    else
      { st with not_mapped := nm }

/-- The mapped-window update of surface_commit, src/src/shell/mod.rs lines 143..207,
for the found window: self_update, then read the recomputed geometry; if the resize
state is Resizing, WaitingForFinalAck or WaitingForCommit and the resize edges
intersect TOP_LEFT, recompute the location so the opposite edge stays fixed (lines
168..181); a WaitingForCommit resize state then returns to NotResizing (lines
186..189); a WaitingForCommit move-after-resize state overrides the location with
its target and latches to Current (lines 191..198); finally the resolved location,
if any, is applied (lines 204..206). -/
def updateMappedWindow (w0 : Window) : Window :=
  let w := w0.self_update
  let geometry := w.geometry
  let d := w.tree.data
  let new_location : Option Point :=
    match d.resize_state with
    | .Resizing rd | .WaitingForFinalAck rd _ | .WaitingForCommit rd =>
      if rd.edges.intersects ResizeEdge.TOP_LEFT then
        let loc := w.location
        let lx :=
          if rd.edges.intersects ResizeEdge.LEFT then
            rd.initial_window_location.x + (rd.initial_window_size.w - geometry.size.w)
          else loc.x
        let ly :=
          if rd.edges.intersects ResizeEdge.TOP then
            rd.initial_window_location.y + (rd.initial_window_size.h - geometry.size.h)
          else loc.y
        some ⟨lx, ly⟩
      else none
    | .NotResizing => none
  let d :=
    match d.resize_state with
    | .WaitingForCommit _ => { d with resize_state := .NotResizing }
    | _ => d
  let nld : Option Point × SurfaceData :=
    match d.move_after_resize_state with
    | .WaitingForCommit mdata =>
      (some mdata.target_window_location,
       { d with move_after_resize_state := .Current mdata })
    | _ => (new_location, d)
  let w := { w with tree := w.tree.setData nld.2 }
  match nld.1 with
  | some loc => { w with location := loc }
  | none => w

/-- The grabbed-window block of surface_commit, src/src/shell/mod.rs lines 210..231:
when the committed surface is the grabbed window, a WaitingForCommit
move-after-resize state latches to Current without touching the location. -/
def latchGrab (g : Window) : Window :=
  let d := g.tree.data
  match d.move_after_resize_state with
  | .WaitingForCommit mdata =>
    { g with tree := g.tree.setData { d with move_after_resize_state := .Current mdata } }
  | _ => g

/-- Refresh the buffers of a window whose root surface is the committed one. -/
def refreshWindow (sid : Nat) (w : Window) : Window :=
  if w.tree.sid == sid then { w with tree := bufferRefreshWalk w.tree } else w

/-- Update the first window of a workspace found for the committed surface, as
find_window_mut does (src/src/shell/mod.rs line 143). -/
def updateFirstWindow (sid : Nat) (f : Window → Window) : List Window → List Window
  | [] => []
  | w :: ws => if w.tree.sid == sid then f w :: ws else w :: updateFirstWindow sid f ws

/-- The buffer-refresh step of surface_commit, src/src/shell/mod.rs lines 56..75:
unless the surface is a synchronized sub-surface, the buffer-refresh walk updates
the per-surface state of every node of the committed surface tree, wherever that
surface lives in the desktop state. -/
def commitBufferRefresh (sid : Nat) (is_sync_sub : Bool) (st : CommitState) : CommitState :=
  if is_sync_sub then st
  else
    { st with
      not_mapped := st.not_mapped.map (refreshWindow sid)
      workspaces := st.workspaces.map (fun (ws : Workspace) =>
        Workspace.mk (ws.mapped.map (refreshWindow sid)))
      grabbed := st.grabbed.map (refreshWindow sid) }

/-- The mapped-window step of surface_commit, src/src/shell/mod.rs lines 140..208:
every visible workspace updates its window found for the committed surface. -/
def commitMappedUpdate (sid : Nat) (st : CommitState) : CommitState :=
  { st with
    workspaces := st.workspaces.map (fun (ws : Workspace) =>
      Workspace.mk (updateFirstWindow sid updateMappedWindow ws.mapped)) }

/-- The grabbed-window step of surface_commit, src/src/shell/mod.rs lines 210..231:
a grabbed window on this surface latches its move-after-resize state. -/
def commitGrabUpdate (sid : Nat) (st : CommitState) : CommitState :=
  match st.grabbed with
  | some g => if g.tree.sid == sid then { st with grabbed := some (latchGrab g) } else st
  | none => st

/-- Anodium::surface_commit, src/src/shell/mod.rs lines 52..278, over the desktop
state (the layer-shell tail of the handler, lines 253..277, acts on the per-output
layer maps modelled separately by LayerMap): the buffer-refresh step, then the
pending-map block, then the mapped-window update, then the grabbed-window latch. -/
def surface_commit (sid : Nat) (is_sync_sub : Bool) (st : CommitState) : CommitState :=
  commitGrabUpdate sid
    (commitMappedUpdate sid (pendingMapStep sid (commitBufferRefresh sid is_sync_sub st)))

/-- A call received by a positioning strategy, recorded in order of arrival.  The
payloads are the identifying arguments of the corresponding Positioner method. -/
inductive StratCall where
  | mapToplevel (t : Toplevel)
  | unmapToplevel (t : Toplevel)
  | moveRequest (t : Toplevel)
  | resizeRequest (t : Toplevel) (edges : ResizeEdge)
  | maximizeRequest (t : Toplevel)
  | unmaximizeRequest (t : Toplevel)
  | onPointerMove (pos : Point)
  | onPointerButton (button : Nat) (pressed : Bool)
  | setGeometry (r : Rectangle)
  | sendFrames (time : Nat)
  | update (delta : Int)
deriving DecidableEq

/-- An abstract positioning strategy (Floating or Tiling; their source files are
opaque to the dispatcher): the log of calls it received, its respective responses to
unmap and move requests as pure functions of the toplevel, and its geometry. -/
structure Strategy where
  calls : List StratCall
  unmapResp : Toplevel → Option Nat
  moveResp : Toplevel → Option Nat
  geo : Rectangle

/-- Record one received call at the end of the strategy log. -/
def Strategy.recv (s : Strategy) (c : StratCall) : Strategy :=
  { s with calls := s.calls ++ [c] }

/-- The strategy handles unmap_toplevel: it records the call and answers with its
response function (the returned window id if it owned the toplevel). -/
def Strategy.unmap_toplevel (s : Strategy) (t : Toplevel) : Option Nat × Strategy :=
  (s.unmapResp t, s.recv (.unmapToplevel t))

/-- The strategy handles move_request: it records the call and answers with its
response function (the grab descriptor id if it started a drag). -/
def Strategy.move_request (s : Strategy) (t : Toplevel) : Option Nat × Strategy :=
  (s.moveResp t, s.recv (.moveRequest t))

/-- PositionerMode of src/src/positioner/universal.rs lines 9..12. -/
inductive PositionerMode where
  | Floating
  | Tiling
deriving DecidableEq

/-- Universal of src/src/positioner/universal.rs lines 14..20: both strategies plus
the selected mode. -/
structure Universal where
  floating : Strategy
  tiling : Strategy
  mode : PositionerMode

/-- Universal::map_toplevel, universal.rs lines 34..39: dispatched to the strategy
selected by the mode only. -/
def Universal.map_toplevel (u : Universal) (t : Toplevel) : Universal :=
  match u.mode with
  | .Floating => { u with floating := u.floating.recv (.mapToplevel t) }
  | .Tiling => { u with tiling := u.tiling.recv (.mapToplevel t) }

/-- Universal::unmap_toplevel, universal.rs lines 41..49: ask the floating strategy
first; only if it answers none is the tiling strategy asked; the first non-empty
answer is returned. -/
def Universal.unmap_toplevel (u : Universal) (t : Toplevel) : Option Nat × Universal :=
  let rf := u.floating.unmap_toplevel t
  match rf.1 with
  | some win => (some win, { u with floating := rf.2 })
  | none =>
    let rt := u.tiling.unmap_toplevel t
    match rt.1 with
    | some win => (some win, { u with floating := rf.2, tiling := rt.2 })
    | none => (none, { u with floating := rf.2, tiling := rt.2 })

/-- Universal::move_request, universal.rs lines 51..65: ask the floating strategy
first; only if it answers none is the tiling strategy asked; the first non-empty
answer is returned. -/
def Universal.move_request (u : Universal) (t : Toplevel) : Option Nat × Universal :=
  let rf := u.floating.move_request t
  match rf.1 with
  | some req => (some req, { u with floating := rf.2 })
  | none =>
    let rt := u.tiling.move_request t
    match rt.1 with
    | some req => (some req, { u with floating := rf.2, tiling := rt.2 })
    | none => (none, { u with floating := rf.2, tiling := rt.2 })

/-- Universal::resize_request, universal.rs lines 67..79: forwarded to both
strategies unconditionally, floating first; no result is returned. -/
def Universal.resize_request (u : Universal) (t : Toplevel) (edges : ResizeEdge) : Universal :=
  { u with
    floating := u.floating.recv (.resizeRequest t edges)
    tiling := u.tiling.recv (.resizeRequest t edges) }

/-- Universal::maximize_request, universal.rs lines 81..84: forwarded to both
strategies unconditionally. -/
def Universal.maximize_request (u : Universal) (t : Toplevel) : Universal :=
  { u with
    floating := u.floating.recv (.maximizeRequest t)
    tiling := u.tiling.recv (.maximizeRequest t) }

/-- Universal::unmaximize_request, universal.rs lines 86..89: forwarded to both
strategies unconditionally. -/
def Universal.unmaximize_request (u : Universal) (t : Toplevel) : Universal :=
  { u with
    floating := u.floating.recv (.unmaximizeRequest t)
    tiling := u.tiling.recv (.unmaximizeRequest t) }

/-- The outcome of a call that may panic. -/
inductive PanicOr (α : Type) where
  | panicked (msg : String)
  | ok (a : α)

/-- Universal::windows, universal.rs lines 91..94: the body is the unimplemented
panic macro, so the call never returns a window list. -/
def Universal.windows (_ : Universal) : PanicOr (List Nat) :=
  .panicked "not implemented"

/-- Universal::windows_mut, universal.rs lines 96..99: the body is the
unimplemented panic macro, so the call never returns a window list. -/
def Universal.windows_mut (_ : Universal) : PanicOr (List Nat) :=
  .panicked "not implemented"

/-- Universal::on_pointer_move, universal.rs lines 101..104: forwarded to both
strategies unconditionally. -/
def Universal.on_pointer_move (u : Universal) (pos : Point) : Universal :=
  { u with
    floating := u.floating.recv (.onPointerMove pos)
    tiling := u.tiling.recv (.onPointerMove pos) }

/-- Universal::on_pointer_button, universal.rs lines 106..113: forwarded to both
strategies unconditionally. -/
def Universal.on_pointer_button (u : Universal) (button : Nat) (pressed : Bool) : Universal :=
  { u with
    floating := u.floating.recv (.onPointerButton button pressed)
    tiling := u.tiling.recv (.onPointerButton button pressed) }

/-- Universal::set_geometry, universal.rs lines 115..118: forwarded to both
strategies unconditionally. -/
def Universal.set_geometry (u : Universal) (r : Rectangle) : Universal :=
  { u with
    floating := u.floating.recv (.setGeometry r)
    tiling := u.tiling.recv (.setGeometry r) }

/-- Universal::geometry, universal.rs lines 120..122: returns the geometry of the
floating strategy only. -/
def Universal.geometry (u : Universal) : Rectangle :=
  u.floating.geo

/-- Universal::send_frames, universal.rs lines 124..127: forwarded to both
strategies unconditionally. -/
def Universal.send_frames (u : Universal) (time : Nat) : Universal :=
  { u with
    floating := u.floating.recv (.sendFrames time)
    tiling := u.tiling.recv (.sendFrames time) }

/-- Universal::update, universal.rs lines 129..132: forwarded to both strategies
unconditionally. -/
def Universal.update (u : Universal) (delta : Int) : Universal :=
  { u with
    floating := u.floating.recv (.update delta)
    tiling := u.tiling.recv (.update delta) }

/-!  Theorems settling the claims. -/

/-- C10: for every input, calling windows or windows_mut on the Universal positioner
panics (they are unimplemented), so the window-list query at this public interface
never returns; by contrast geometry silently returns only the geometry of the
Floating strategy — in particular it is unaffected by the Tiling strategy. -/
theorem C10_universal_windows_panic :
    ∀ (u : Universal),
      u.windows = .panicked "not implemented" ∧
      u.windows_mut = .panicked "not implemented" ∧
      u.geometry = u.floating.geo ∧
      ∀ (s : Strategy), ({ u with tiling := s } : Universal).geometry = u.geometry := by
  intro u
  exact ⟨rfl, rfl, rfl, fun _ => rfl⟩

/-- A Universal positioner whose floating strategy owns the toplevel under test: its
unmap response is non-empty. -/
def exUniversalSome : Universal :=
  { floating :=
      { calls := [], unmapResp := fun _ => some 7, moveResp := fun _ => some 7
        geo := ⟨⟨0, 0⟩, ⟨0, 0⟩⟩ }
    tiling :=
      { calls := [], unmapResp := fun _ => none, moveResp := fun _ => none
        geo := ⟨⟨0, 0⟩, ⟨0, 0⟩⟩ }
    mode := .Floating }

/-- C4 counterexample: an unmap_toplevel call on the Universal positioner whose
floating strategy answers with a window is NOT forwarded to the tiling strategy —
the tiling call log stays empty although the claim requires unconditional
forwarding to both strategies; the same holds for move_request. -/
theorem C4_universal_dispatch_counterexample :
    (exUniversalSome.unmap_toplevel (.Xdg 0)).1 = some 7 ∧
    (exUniversalSome.unmap_toplevel (.Xdg 0)).2.tiling.calls = [] ∧
    (exUniversalSome.unmap_toplevel (.Xdg 0)).2.floating.calls = [.unmapToplevel (.Xdg 0)] ∧
    (exUniversalSome.move_request (.Xdg 0)).2.tiling.calls = [] := by
  exact ⟨rfl, rfl, rfl, rfl⟩

/-- C4 as amended: resize, maximize, unmaximize, pointer-motion, pointer-button,
set-geometry, frame-callback and update calls are forwarded to both strategies
unconditionally; unmap and move requests always reach the floating strategy, but
reach the tiling strategy only when the floating strategy returns an empty result,
and the first non-empty result is returned as authoritative. -/
theorem C4_universal_dispatch_amended :
    (∀ (u : Universal) (t : Toplevel) (e : ResizeEdge),
      (u.resize_request t e).floating.calls = u.floating.calls ++ [.resizeRequest t e] ∧
      (u.resize_request t e).tiling.calls = u.tiling.calls ++ [.resizeRequest t e] ∧
      (u.maximize_request t).floating.calls = u.floating.calls ++ [.maximizeRequest t] ∧
      (u.maximize_request t).tiling.calls = u.tiling.calls ++ [.maximizeRequest t] ∧
      (u.unmaximize_request t).floating.calls = u.floating.calls ++ [.unmaximizeRequest t] ∧
      (u.unmaximize_request t).tiling.calls = u.tiling.calls ++ [.unmaximizeRequest t]) ∧
    (∀ (u : Universal) (pos : Point) (b : Nat) (pr : Bool) (r : Rectangle)
        (time : Nat) (delta : Int),
      (u.on_pointer_move pos).floating.calls = u.floating.calls ++ [.onPointerMove pos] ∧
      (u.on_pointer_move pos).tiling.calls = u.tiling.calls ++ [.onPointerMove pos] ∧
      (u.on_pointer_button b pr).floating.calls = u.floating.calls ++ [.onPointerButton b pr] ∧
      (u.on_pointer_button b pr).tiling.calls = u.tiling.calls ++ [.onPointerButton b pr] ∧
      (u.set_geometry r).floating.calls = u.floating.calls ++ [.setGeometry r] ∧
      (u.set_geometry r).tiling.calls = u.tiling.calls ++ [.setGeometry r] ∧
      (u.send_frames time).floating.calls = u.floating.calls ++ [.sendFrames time] ∧
      (u.send_frames time).tiling.calls = u.tiling.calls ++ [.sendFrames time] ∧
      (u.update delta).floating.calls = u.floating.calls ++ [.update delta] ∧
      (u.update delta).tiling.calls = u.tiling.calls ++ [.update delta]) ∧
    (∀ (u : Universal) (t : Toplevel),
      (u.unmap_toplevel t).2.floating.calls = u.floating.calls ++ [.unmapToplevel t] ∧
      (∀ w, u.floating.unmapResp t = some w →
        (u.unmap_toplevel t).1 = some w ∧ (u.unmap_toplevel t).2.tiling = u.tiling) ∧
      (u.floating.unmapResp t = none →
        (u.unmap_toplevel t).1 = u.tiling.unmapResp t ∧
        (u.unmap_toplevel t).2.tiling.calls = u.tiling.calls ++ [.unmapToplevel t])) ∧
    (∀ (u : Universal) (t : Toplevel),
      (u.move_request t).2.floating.calls = u.floating.calls ++ [.moveRequest t] ∧
      (∀ w, u.floating.moveResp t = some w →
        (u.move_request t).1 = some w ∧ (u.move_request t).2.tiling = u.tiling) ∧
      (u.floating.moveResp t = none →
        (u.move_request t).1 = u.tiling.moveResp t ∧
        (u.move_request t).2.tiling.calls = u.tiling.calls ++ [.moveRequest t])) := by
  refine ⟨?_, ?_, ?_, ?_⟩
  · intro u t e
    exact ⟨rfl, rfl, rfl, rfl, rfl, rfl⟩
  · intro u pos b pr r time delta
    exact ⟨rfl, rfl, rfl, rfl, rfl, rfl, rfl, rfl, rfl, rfl⟩
  · intro u t
    refine ⟨?_, ?_, ?_⟩
    · cases hf : u.floating.unmapResp t <;>
        cases ht : u.tiling.unmapResp t <;>
        simp [Universal.unmap_toplevel, Strategy.unmap_toplevel, Strategy.recv, hf, ht]
    · intro w hf
      constructor <;>
        simp [Universal.unmap_toplevel, Strategy.unmap_toplevel, Strategy.recv, hf]
    · intro hf
      cases ht : u.tiling.unmapResp t <;>
        simp [Universal.unmap_toplevel, Strategy.unmap_toplevel, Strategy.recv, hf, ht]
  · intro u t
    refine ⟨?_, ?_, ?_⟩
    · cases hf : u.floating.moveResp t <;>
        cases ht : u.tiling.moveResp t <;>
        simp [Universal.move_request, Strategy.move_request, Strategy.recv, hf, ht]
    · intro w hf
      constructor <;>
        simp [Universal.move_request, Strategy.move_request, Strategy.recv, hf]
    · intro hf
      cases ht : u.tiling.moveResp t <;>
        simp [Universal.move_request, Strategy.move_request, Strategy.recv, hf, ht]

/-- A Universal positioner whose floating strategy does not own the toplevel under
test: both response functions are empty. -/
def exUniversalNone : Universal :=
  { floating :=
      { calls := [], unmapResp := fun _ => none, moveResp := fun _ => none
        geo := ⟨⟨0, 0⟩, ⟨0, 0⟩⟩ }
    tiling :=
      { calls := [], unmapResp := fun _ => some 9, moveResp := fun _ => none
        geo := ⟨⟨0, 0⟩, ⟨0, 0⟩⟩ }
    mode := .Floating }

/-- Witness for C4 as amended, at a concrete positioner whose floating strategy
answers none: the unmap request falls through to the tiling strategy and its answer
is returned. -/
theorem C4_universal_dispatch_amended_witness :
    exUniversalNone.floating.unmapResp (.Xdg 3) = none ∧
    ((exUniversalNone.unmap_toplevel (.Xdg 3)).1 = exUniversalNone.tiling.unmapResp (.Xdg 3) ∧
     (exUniversalNone.unmap_toplevel (.Xdg 3)).2.tiling.calls =
       exUniversalNone.tiling.calls ++ [.unmapToplevel (.Xdg 3)]) :=
  ⟨rfl, (C4_universal_dispatch_amended.2.2.1 exUniversalNone (.Xdg 3)).2.2 rfl⟩

/-- The exclusive-zone accumulators produced by running the arange loop body over a
list of layer surfaces, ignoring the per-surface updates. -/
def zoneList (r : Rectangle) : List LayerSurface → LayerExclusiveZone → LayerExclusiveZone
  | [], ez => ez
  | l :: ls, ez => zoneList r ls (arangeStep r ez l).1

theorem arangeStep_snd_ez (r : Rectangle) (ez ez' : LayerExclusiveZone) (l : LayerSurface) :
    (arangeStep r ez l).2 = (arangeStep r ez' l).2 := by
  cases h : l.handle.tree <;> simp [arangeStep, h]

theorem arangeStep_snd_handle (r : Rectangle) (ez : LayerExclusiveZone) (l : LayerSurface) :
    (arangeStep r ez l).2.handle = l.handle := by
  cases h : l.handle.tree <;> simp [arangeStep, h]

theorem arangeStep_fst_of_snd (r : Rectangle) (ez ez' : LayerExclusiveZone) (l : LayerSurface) :
    (arangeStep r ez ((arangeStep r ez' l).2)).1 = (arangeStep r ez l).1 := by
  cases h : l.handle.tree <;> simp [arangeStep, h]

theorem arangeStep_snd_idem (r : Rectangle) (ez ez' : LayerExclusiveZone) (l : LayerSurface) :
    (arangeStep r ez ((arangeStep r ez' l).2)).2 = (arangeStep r ez' l).2 := by
  cases h : l.handle.tree <;> simp [arangeStep, h]

theorem foldl_arangeFoldFun (r : Rectangle) :
    ∀ (ls : List LayerSurface) (ez : LayerExclusiveZone) (acc : List LayerSurface),
      ls.foldl (arangeFoldFun r) (ez, acc) =
        (zoneList r ls ez, acc ++ ls.map (fun l => (arangeStep r ⟨0, 0, 0, 0⟩ l).2))
  | [], ez, acc => by simp [zoneList]
  | l :: ls, ez, acc => by
    have h := foldl_arangeFoldFun r ls (arangeStep r ez l).1 (acc ++ [(arangeStep r ez l).2])
    simp only [List.foldl_cons, arangeFoldFun, zoneList, List.map_cons, h,
      List.append_assoc, List.singleton_append]
    rw [arangeStep_snd_ez r ez ⟨0, 0, 0, 0⟩]

theorem arange_surfaces (m : LayerMap) (r : Rectangle) :
    (m.arange r).surfaces = m.surfaces.map (fun l => (arangeStep r ⟨0, 0, 0, 0⟩ l).2) := by
  simp [LayerMap.arange, foldl_arangeFoldFun]

theorem arange_zone (m : LayerMap) (r : Rectangle) :
    (m.arange r).exclusive_zone = zoneList r m.surfaces ⟨0, 0, 0, 0⟩ := by
  simp [LayerMap.arange, foldl_arangeFoldFun]

theorem zoneList_map_snd (r : Rectangle) :
    ∀ (ls : List LayerSurface) (ez : LayerExclusiveZone),
      zoneList r (ls.map (fun l => (arangeStep r ⟨0, 0, 0, 0⟩ l).2)) ez = zoneList r ls ez
  | [], ez => rfl
  | l :: ls, ez => by
    simp only [List.map_cons, zoneList, arangeStep_fst_of_snd]
    exact zoneList_map_snd r ls (arangeStep r ez l).1

/-- C7: LayerMap arange is idempotent given unchanged inputs — running it a second
time with the same output rectangle reproduces exactly the same stored locations,
pending sizes and exclusive-zone accumulators, because the accumulators are reset
and recomputed from scratch as a pure function of the current layer surfaces. -/
theorem C7_arange_idempotent : ∀ (m : LayerMap) (r : Rectangle),
    (m.arange r).arange r = m.arange r := by
  intro m r
  have hrec : ∀ (a b : LayerMap), a.surfaces = b.surfaces →
      a.exclusive_zone = b.exclusive_zone → a = b := by
    intro a b h1 h2
    cases a
    cases b
    simp_all
  apply hrec
  · rw [arange_surfaces, arange_surfaces m r, List.map_map]
    apply List.map_congr_left
    intro l _
    simp only [Function.comp_apply]
    exact arangeStep_snd_idem r ⟨0, 0, 0, 0⟩ ⟨0, 0, 0, 0⟩ l
  · rw [arange_zone, arange_zone m r, arange_surfaces m r]
    exact zoneList_map_snd r m.surfaces ⟨0, 0, 0, 0⟩

/-- A per-surface state with no attached buffer, not resizing, no pending move. -/
def defaultSurfaceData : SurfaceData :=
  ⟨none, .NotResizing, .None⟩

/-- A minimal live layer-surface handle with the given requested size, anchor set,
exclusive-zone request and tier. -/
def exLayerHandle (sz : Size) (a : Anchor) (z : ExclusiveZone) (tier : Layer) :
    LayerSurfaceHandle :=
  ⟨true, some (.mk 0 none ⟨0, 0⟩ defaultSurfaceData []), ⟨sz, a, z, tier⟩⟩

/-- C3: a layer surface with declared exclusive thickness v contributes v to exactly
the accumulator of the single edge it is anchored to when its anchor set is exactly
that edge alone or that edge plus its two perpendicular edges, and contributes
nothing otherwise (other anchor patterns, a non-exclusive request, or a dead
surface); in particular a surface anchored to LEFT only with thickness 40 on an
otherwise-empty map yields left accumulator 40 and all others 0 after arrange, and
a surface anchored to LEFT, TOP and BOTTOM with thickness 25 contributes to left
only. -/
theorem C3_exclusive_zone_accumulation :
    (∀ (al : Bool) (t : SurfNode) (sz : Size) (a : Anchor) (tier tier2 : Layer)
       (loc : Point) (bb : Rectangle) (ps : Option Size)
       (r : Rectangle) (ez : LayerExclusiveZone) (v : Nat),
      (arangeStep r ez ⟨⟨al, some t, ⟨sz, a, .Exclusive v, tier⟩⟩, loc, bb, tier2, ps⟩).1 =
        { top := ez.top +
            (if a = Anchor.TOP ∨ a = Anchor.TOP.union (Anchor.LEFT.union Anchor.RIGHT)
             then v else 0)
          bottom := ez.bottom +
            (if a = Anchor.BOTTOM ∨ a = Anchor.BOTTOM.union (Anchor.LEFT.union Anchor.RIGHT)
             then v else 0)
          left := ez.left +
            (if a = Anchor.LEFT ∨ a = Anchor.LEFT.union (Anchor.BOTTOM.union Anchor.TOP)
             then v else 0)
          right := ez.right +
            (if a = Anchor.RIGHT ∨ a = Anchor.RIGHT.union (Anchor.BOTTOM.union Anchor.TOP)
             then v else 0) }) ∧
    (∀ (al : Bool) (t : SurfNode) (sz : Size) (a : Anchor) (tier tier2 : Layer)
       (loc : Point) (bb : Rectangle) (ps : Option Size)
       (r : Rectangle) (ez : LayerExclusiveZone),
      (arangeStep r ez ⟨⟨al, some t, ⟨sz, a, .Neutral, tier⟩⟩, loc, bb, tier2, ps⟩).1 = ez ∧
      (arangeStep r ez ⟨⟨al, some t, ⟨sz, a, .DontCare, tier⟩⟩, loc, bb, tier2, ps⟩).1 = ez) ∧
    (∀ (al : Bool) (c : LayerSurfaceCachedState) (tier2 : Layer)
       (loc : Point) (bb : Rectangle) (ps : Option Size)
       (r : Rectangle) (ez : LayerExclusiveZone),
      (arangeStep r ez ⟨⟨al, none, c⟩, loc, bb, tier2, ps⟩).1 = ez) ∧
    ((((LayerMap.mk [] ⟨0, 0, 0, 0⟩).insert
        (exLayerHandle ⟨10, 10⟩ Anchor.LEFT (.Exclusive 40) .Bottom) .Bottom).arange
        ⟨⟨0, 0⟩, ⟨1920, 1080⟩⟩).exclusive_zone = ⟨0, 0, 40, 0⟩) ∧
    ((((LayerMap.mk [] ⟨0, 0, 0, 0⟩).insert
        (exLayerHandle ⟨10, 10⟩ ⟨true, false, true, true⟩ (.Exclusive 25) .Bottom) .Bottom).arange
        ⟨⟨0, 0⟩, ⟨1920, 1080⟩⟩).exclusive_zone = ⟨0, 0, 25, 0⟩) := by
  refine ⟨?_, ?_, ?_, by decide, by decide⟩
  · intro al t sz a tier tier2 loc bb ps r ez v
    obtain ⟨aL, aR, aT, aB⟩ := a
    cases aL <;> cases aR <;> cases aT <;> cases aB <;>
      simp [arangeStep, Anchor.union, Anchor.LEFT, Anchor.RIGHT, Anchor.TOP, Anchor.BOTTOM]
  · intro al t sz a tier tier2 loc bb ps r ez
    exact ⟨by simp [arangeStep], by simp [arangeStep]⟩
  · intro al c tier2 loc bb ps r ez
    simp [arangeStep]

/-- A layer map holding a single live surface with the given requested size and
anchor set, at an arbitrary stored location, for exercising arange placement. -/
def exPlacementMap (sz : Size) (a : Anchor) : LayerMap :=
  ⟨[⟨exLayerHandle sz a .Neutral .Bottom, ⟨5, 5⟩, ⟨⟨5, 5⟩, ⟨0, 0⟩⟩, .Bottom, none⟩],
   ⟨0, 0, 0, 0⟩⟩

/-- C6 counterexample: on a 100 x 100 output, arange places an unanchored layer
surface with zero requested size at the output corner (0, 0) — not centered at
(50, 50) as the claim requires for zero-width surfaces — and it requests a surface
that did specify its own size (30 x 40) to resize to the full output size anyway,
although the claim allows that request only for surfaces that specified no size. -/
theorem C6_arange_placement_counterexample :
    ((exPlacementMap ⟨0, 0⟩ ⟨false, false, false, false⟩).arange
        ⟨⟨0, 0⟩, ⟨100, 100⟩⟩).surfaces.map (fun l => l.location) = [⟨0, 0⟩] ∧
    ¬ (((exPlacementMap ⟨0, 0⟩ ⟨false, false, false, false⟩).arange
        ⟨⟨0, 0⟩, ⟨100, 100⟩⟩).surfaces.map (fun l => l.location) = [⟨50, 50⟩]) ∧
    ((exPlacementMap ⟨30, 40⟩ ⟨false, false, false, false⟩).arange
        ⟨⟨0, 0⟩, ⟨100, 100⟩⟩).surfaces.map (fun l => l.pending_size) = [some ⟨100, 100⟩] := by
  exact ⟨by decide, by decide, by decide⟩

/-- C6 as amended: arange places a layer surface with zero requested width, or one
anchored left, at the left edge of the output; one anchored right flush with the
right edge; any other surface centered horizontally (the symmetric rule vertically
for zero height and top/bottom anchors) — so zero-size surfaces land at the output
corner rather than centered — and every live layer surface is requested to resize
to the full output size, whether or not it specified a size of its own. -/
theorem C6_arange_placement_amended :
    ∀ (al : Bool) (t : SurfNode) (sz : Size) (a : Anchor) (z : ExclusiveZone)
      (tier tier2 : Layer) (loc : Point) (bb : Rectangle) (ps : Option Size)
      (r : Rectangle) (ez : LayerExclusiveZone),
      ((arangeStep r ez ⟨⟨al, some t, ⟨sz, a, z, tier⟩⟩, loc, bb, tier2, ps⟩).2.location.x =
        (if sz.w = 0 ∨ a.contains Anchor.LEFT = true then r.loc.x
         else if a.contains Anchor.RIGHT = true then r.loc.x + (r.size.w - sz.w)
         else r.loc.x + (Int.tdiv r.size.w 2 - Int.tdiv sz.w 2))) ∧
      ((arangeStep r ez ⟨⟨al, some t, ⟨sz, a, z, tier⟩⟩, loc, bb, tier2, ps⟩).2.location.y =
        (if sz.h = 0 ∨ a.contains Anchor.TOP = true then r.loc.y
         else if a.contains Anchor.BOTTOM = true then r.loc.y + (r.size.h - sz.h)
         else r.loc.y + (Int.tdiv r.size.h 2 - Int.tdiv sz.h 2))) ∧
      ((arangeStep r ez ⟨⟨al, some t, ⟨sz, a, z, tier⟩⟩, loc, bb, tier2, ps⟩).2.pending_size =
        some r.size) := by
  intro al t sz a z tier tier2 loc bb ps r ez
  refine ⟨?_, ?_, ?_⟩ <;>
    simp [arangeStep, Bool.or_eq_true, beq_iff_eq]

/-- A per-surface state with an attached 10 x 10 buffer. -/
def bufferedSurfaceData : SurfaceData :=
  ⟨some ⟨10, 10⟩, .NotResizing, .None⟩

/-- A live layer-surface handle with root surface id i, a mapped 10 x 10 buffer and
the given tier in its cached state. -/
def exScenarioHandle (i : Nat) (tier : Layer) : LayerSurfaceHandle :=
  ⟨true, some (.mk i (some ⟨10, 10⟩) ⟨0, 0⟩ bufferedSurfaceData []),
   ⟨⟨10, 10⟩, ⟨false, false, false, false⟩, .Neutral, tier⟩⟩

/-- Three layer surfaces inserted into tiers bottom, top, bottom, in that order. -/
def exScenarioMap : LayerMap :=
  (((LayerMap.mk [] ⟨0, 0, 0, 0⟩).insert (exScenarioHandle 1 .Bottom) .Bottom).insert
      (exScenarioHandle 2 .Top) .Top).insert
    (exScenarioHandle 3 .Bottom) .Bottom

/-- C8: layer surfaces are ordered most-recently-inserted-first within their tier —
insert places the new surface at the front of the collection, get_surface_under
returns the most recently inserted matching surface of the tier, and the
bottom-to-top iteration visits the tier in reverse insertion order, the newly
inserted surface last; in the scenario of three surfaces inserted into tiers
bottom, top, bottom in that order, iterating the bottom tier visits the
first-inserted surface (id 1) before the third-inserted one (id 3), and hit-testing
the two overlapping bottom surfaces returns the most recently inserted one (id 3). -/
theorem C8_layer_order :
    (∀ (m : LayerMap) (h : LayerSurfaceHandle) (tier : Layer),
      (m.insert h tier).surfaces =
        ({ handle := h, location := ⟨0, 0⟩, bbox := ⟨⟨0, 0⟩, ⟨0, 0⟩⟩,
           layer := tier, pending_size := none } : LayerSurface).self_update ::
          m.surfaces ∧
      (({ handle := h, location := ⟨0, 0⟩, bbox := ⟨⟨0, 0⟩, ⟨0, 0⟩⟩,
          layer := tier, pending_size := none } : LayerSurface).self_update.layer = tier →
        (m.insert h tier).layers_from_bottom_to_top tier =
          m.layers_from_bottom_to_top tier ++
            [({ handle := h, location := ⟨0, 0⟩, bbox := ⟨⟨0, 0⟩, ⟨0, 0⟩⟩,
                layer := tier, pending_size := none } : LayerSurface).self_update]) ∧
      (∀ (p : Point) (res : Nat × Point),
        ({ handle := h, location := ⟨0, 0⟩, bbox := ⟨⟨0, 0⟩, ⟨0, 0⟩⟩,
           layer := tier, pending_size := none } : LayerSurface).self_update.layer = tier →
        ({ handle := h, location := ⟨0, 0⟩, bbox := ⟨⟨0, 0⟩, ⟨0, 0⟩⟩,
           layer := tier, pending_size := none } : LayerSurface).self_update.matching p =
          some res →
        (m.insert h tier).get_surface_under tier p = some res)) ∧
    ((exScenarioMap.layers_from_bottom_to_top .Bottom).map
        (fun l => l.handle.tree.map SurfNode.sid) = [some 1, some 3]) ∧
    ((exScenarioMap.layers_from_bottom_to_top .Top).map
        (fun l => l.handle.tree.map SurfNode.sid) = [some 2]) ∧
    (exScenarioMap.get_surface_under .Bottom ⟨2, 2⟩ = some (3, ⟨0, 0⟩)) := by
  refine ⟨?_, by decide, by decide, by decide⟩
  intro m h tier
  refine ⟨rfl, ?_, ?_⟩
  · intro hl
    simp [LayerMap.insert, LayerMap.layers_from_bottom_to_top, hl]
  · intro p res hl hm
    simp [LayerMap.insert, LayerMap.get_surface_under, hl, hm]

/-- Witness for C8 at a concrete map: inserting a fresh bottom-tier surface with a
mapped buffer onto the scenario map makes it the surface returned by the
hit test, its matching answer being authoritative. -/
theorem C8_layer_order_witness :
    (({ handle := exScenarioHandle 4 .Bottom, location := ⟨0, 0⟩, bbox := ⟨⟨0, 0⟩, ⟨0, 0⟩⟩,
        layer := Layer.Bottom, pending_size := none } : LayerSurface).self_update.layer =
      Layer.Bottom) ∧
    (({ handle := exScenarioHandle 4 .Bottom, location := ⟨0, 0⟩, bbox := ⟨⟨0, 0⟩, ⟨0, 0⟩⟩,
        layer := Layer.Bottom, pending_size := none } : LayerSurface).self_update.matching
        ⟨2, 2⟩ = some (4, ⟨0, 0⟩)) ∧
    (exScenarioMap.insert (exScenarioHandle 4 .Bottom) .Bottom).get_surface_under
        .Bottom ⟨2, 2⟩ = some (4, ⟨0, 0⟩) :=
  ⟨by decide, by decide,
   (C8_layer_order.1 exScenarioMap (exScenarioHandle 4 .Bottom) .Bottom).2.2
     ⟨2, 2⟩ (4, ⟨0, 0⟩) (by decide) (by decide)⟩

/-- C9: refresh removes exactly those layer surfaces whose underlying surface has
died, re-runs the bounding-box recompute (self_update) for every surviving surface,
and leaves the exclusive-zone accumulators unchanged. -/
theorem C9_refresh :
    ∀ (m : LayerMap),
      ((m.refresh).exclusive_zone = m.exclusive_zone) ∧
      (∀ l2, l2 ∈ (m.refresh).surfaces →
        ∃ l, l ∈ m.surfaces ∧ l.handle.alive = true ∧ l2 = l.self_update) ∧
      (∀ l, l ∈ m.surfaces → l.handle.alive = true →
        l.self_update ∈ (m.refresh).surfaces) ∧
      ((m.refresh).surfaces =
        (m.surfaces.filter (fun l => l.handle.alive)).map LayerSurface.self_update) := by
  intro m
  refine ⟨rfl, ?_, ?_, rfl⟩
  · intro l2 hl2
    simp only [LayerMap.refresh, List.mem_map, List.mem_filter] at hl2
    obtain ⟨l, ⟨hmem, halive⟩, heq⟩ := hl2
    exact ⟨l, hmem, halive, heq.symm⟩
  · intro l hmem halive
    simp only [LayerMap.refresh, List.mem_map, List.mem_filter]
    exact ⟨l, ⟨hmem, halive⟩, rfl⟩

/-- A dead layer surface (its underlying wl_surface is gone). -/
def exDeadSurface : LayerSurface :=
  ⟨⟨false, none, ⟨⟨10, 10⟩, ⟨false, false, false, false⟩, .Neutral, .Bottom⟩⟩,
   ⟨1, 1⟩, ⟨⟨1, 1⟩, ⟨3, 3⟩⟩, .Bottom, none⟩

/-- A live layer surface whose stored bounding box is stale. -/
def exLiveSurface : LayerSurface :=
  ⟨exScenarioHandle 5 .Bottom, ⟨1, 1⟩, ⟨⟨9, 9⟩, ⟨99, 99⟩⟩, .Bottom, none⟩

/-- Witness for C9 at a concrete map of one dead and one live surface: the live
surface survives refresh with its bounding box recomputed, and the accumulators
stay what they were. -/
theorem C9_refresh_witness :
    (exLiveSurface ∈ (LayerMap.mk [exDeadSurface, exLiveSurface] ⟨1, 2, 3, 4⟩).surfaces) ∧
    (exLiveSurface.handle.alive = true) ∧
    (exLiveSurface.self_update ∈
      (LayerMap.mk [exDeadSurface, exLiveSurface] ⟨1, 2, 3, 4⟩).refresh.surfaces) ∧
    ((LayerMap.mk [exDeadSurface, exLiveSurface] ⟨1, 2, 3, 4⟩).refresh.exclusive_zone =
      ⟨1, 2, 3, 4⟩) :=
  ⟨List.Mem.tail _ (List.Mem.head _), rfl,
   (C9_refresh (LayerMap.mk [exDeadSurface, exLiveSurface] ⟨1, 2, 3, 4⟩)).2.2.1
     exLiveSurface (List.Mem.tail _ (List.Mem.head _)) rfl,
   (C9_refresh (LayerMap.mk [exDeadSurface, exLiveSurface] ⟨1, 2, 3, 4⟩)).1⟩

/-- The per-node effect of the buffer-refresh walk on an allNodes entry: the stored
buffer dimensions are overwritten by the attached-buffer size of the commit. -/
def refreshEntry (x : Nat × Option Size × SurfaceData) : Nat × Option Size × SurfaceData :=
  (x.1, x.2.1, x.2.2.update_buffer x.2.1)

mutual
theorem allNodes_bufferRefresh :
    ∀ (t : SurfNode), allNodes (bufferRefreshWalk t) = (allNodes t).map refreshEntry
  | .mk s a sl d cs => by
    simp [bufferRefreshWalk, allNodes, refreshEntry, allNodesList_bufferRefresh cs]

theorem allNodesList_bufferRefresh :
    ∀ (ts : List SurfNode),
      allNodesList (bufferRefreshWalkList ts) = (allNodesList ts).map refreshEntry
  | [] => by simp [bufferRefreshWalkList, allNodesList]
  | n :: ns => by
    simp [bufferRefreshWalkList, allNodesList, allNodes_bufferRefresh n,
      allNodesList_bufferRefresh ns]
end

/-- A two-node surface tree: the root has no attached buffer, its child sub-surface
has a 5 x 5 buffer attached; no stored dimensions yet anywhere. -/
def exTree5 : SurfNode :=
  .mk 0 none ⟨0, 0⟩ defaultSurfaceData [.mk 1 (some ⟨5, 5⟩) ⟨0, 0⟩ defaultSurfaceData []]

/-- A two-node surface tree whose root is unmapped (no stored buffer dimensions)
while the child sub-surface already has stored 10 x 10 buffer dimensions. -/
def exTree5b : SurfNode :=
  .mk 0 none ⟨0, 0⟩ defaultSurfaceData [.mk 1 none ⟨0, 0⟩ bufferedSurfaceData []]

/-- C5 counterexample: in the buffer-refresh walk run on commit, a node with no
attached buffer does NOT cause its subtree to be skipped — on a tree whose root has
no attached buffer, the stored buffer dimensions of the child are still updated
(from none to the 5 x 5 attached buffer), contradicting the claim that no
descendant of a bufferless node has its buffer dimensions updated. -/
theorem C5_buffer_refresh_counterexample :
    (exTree5.attached = none) ∧
    (exTree5.children.map (fun c => c.data.buffer_dim) = [none]) ∧
    ((bufferRefreshWalk exTree5).children.map (fun c => c.data.buffer_dim) =
      [some ⟨5, 5⟩]) ∧
    ¬ ((bufferRefreshWalk exTree5).children.map (fun c => c.data.buffer_dim) = [none]) := by
  exact ⟨rfl, rfl, rfl, by decide⟩

/-- C5 as amended: the buffer-refresh walk visits every node of the tree
unconditionally and overwrites each stored buffer dimension with the attached
buffer of that node — no subtree is skipped; the bufferless-parent skip rule
belongs to the bounding-box recompute walk instead, which ignores the whole subtree
below an unmapped root even when a child has stored buffer dimensions. -/
theorem C5_buffer_refresh_amended :
    (∀ (t : SurfNode), allNodes (bufferRefreshWalk t) = (allNodes t).map refreshEntry) ∧
    (computeBBox ⟨0, 0⟩ exTree5b = ⟨⟨0, 0⟩, ⟨0, 0⟩⟩) ∧
    (computeBBox ⟨0, 0⟩ (.mk 1 none ⟨0, 0⟩ bufferedSurfaceData []) = ⟨⟨0, 0⟩, ⟨10, 10⟩⟩) := by
  exact ⟨allNodes_bufferRefresh, by decide, by decide⟩

/-- A mapped window at (100, 100) of initial size 200 x 150 whose client has just
committed a 150 x 100 buffer while a top-left interactive resize is waiting for
this commit. -/
def exResizeWindow : Window :=
  { toplevel := .Xdg 0
    location := ⟨100, 100⟩
    bbox := ⟨⟨100, 100⟩, ⟨200, 150⟩⟩
    tree := .mk 0 (some ⟨150, 100⟩) ⟨0, 0⟩
      ⟨some ⟨200, 150⟩,
       .WaitingForCommit ⟨ResizeEdge.TOP_LEFT, ⟨100, 100⟩, ⟨200, 150⟩⟩, .None⟩ []
    xdg_attrs := ⟨true, true⟩ }

/-- The desktop state holding just that mapped window in the active workspace. -/
def exResizeState : CommitState :=
  ⟨[], [⟨[exResizeWindow]⟩], none⟩

/-- C2: for a mapped window in resize state Resizing, WaitingForFinalAck or
WaitingForCommit whose resize edges include top and/or left (and with no pending
move-after-resize override), the commit handler recomputes the location so the
opposite edge stays fixed — new x is initial x plus (initial width minus current
width) when left is among the edges, and analogously for top/height — and a
WaitingForCommit state transitions back to NotResizing; in particular a window at
(100, 100) of size 200 x 150 resized from the top-left edge to 150 x 100 relocates
to (150, 150). -/
theorem C2_resize_compensation :
    (∀ (w : Window) (rd : ResizeData) (n : Nat),
      (w.tree.data.resize_state = .Resizing rd ∨
       w.tree.data.resize_state = .WaitingForFinalAck rd n ∨
       w.tree.data.resize_state = .WaitingForCommit rd) →
      rd.edges.intersects ResizeEdge.TOP_LEFT = true →
      (∀ md, w.tree.data.move_after_resize_state ≠ .WaitingForCommit md) →
      ((updateMappedWindow w).location.x =
        (if rd.edges.intersects ResizeEdge.LEFT then
          rd.initial_window_location.x +
            (rd.initial_window_size.w - (computeBBox w.location w.tree).size.w)
         else w.location.x)) ∧
      ((updateMappedWindow w).location.y =
        (if rd.edges.intersects ResizeEdge.TOP then
          rd.initial_window_location.y +
            (rd.initial_window_size.h - (computeBBox w.location w.tree).size.h)
         else w.location.y)) ∧
      (w.tree.data.resize_state = .WaitingForCommit rd →
        (updateMappedWindow w).tree.data.resize_state = .NotResizing)) ∧
    (((surface_commit 0 false exResizeState).workspaces.map
        (fun ws => ws.mapped.map (fun w => w.location)) = [[⟨150, 150⟩]]) ∧
     ((surface_commit 0 false exResizeState).workspaces.map
        (fun ws => ws.mapped.map (fun w => w.tree.data.resize_state)) =
       [[.NotResizing]])) := by
  refine ⟨?_, by decide, by decide⟩
  intro w rd n h1 h2 h3
  obtain ⟨wt, wloc, wbbox, wtree, wattrs⟩ := w
  obtain ⟨sid, att, sl, d, cs⟩ := wtree
  obtain ⟨bd, rs, mars⟩ := d
  simp only [SurfNode.data] at h1 h3
  cases mars with
  | WaitingForCommit md => exact absurd rfl (h3 md)
  | None =>
    rcases h1 with h1 | h1 | h1 <;> subst h1 <;>
      simp [updateMappedWindow, Window.self_update, Window.geometry, SurfNode.data,
        SurfNode.setData, h2]
  | Current md =>
    rcases h1 with h1 | h1 | h1 <;> subst h1 <;>
      simp [updateMappedWindow, Window.self_update, Window.geometry, SurfNode.data,
        SurfNode.setData, h2]

/-- Witness for C2 at the concrete resize scenario window: the hypotheses hold and
the commit relocates it to (150, 150) with the resize state resolved. -/
theorem C2_resize_compensation_witness :
    (exResizeWindow.tree.data.resize_state =
      .WaitingForCommit ⟨ResizeEdge.TOP_LEFT, ⟨100, 100⟩, ⟨200, 150⟩⟩) ∧
    (ResizeEdge.intersects ResizeEdge.TOP_LEFT ResizeEdge.TOP_LEFT = true) ∧
    ((updateMappedWindow exResizeWindow).location.x =
      (if ResizeEdge.intersects ResizeEdge.TOP_LEFT ResizeEdge.LEFT then
        (100 : Int) + (200 - (computeBBox exResizeWindow.location exResizeWindow.tree).size.w)
       else exResizeWindow.location.x)) ∧
    ((updateMappedWindow exResizeWindow).tree.data.resize_state = .NotResizing) := by
  have h := C2_resize_compensation.1 exResizeWindow
    ⟨ResizeEdge.TOP_LEFT, ⟨100, 100⟩, ⟨200, 150⟩⟩ 0
    (Or.inr (Or.inr (by decide))) (by decide)
    (fun md h => by simp [exResizeWindow, SurfNode.data] at h)
  exact ⟨by decide, by decide, h.1, h.2.2 (by decide)⟩

/-- The toplevels mapped in each visible workspace, in order — the shape of the
mapped sets a commit may or may not change. -/
def mappedToplevels (st : CommitState) : List (List Toplevel) :=
  st.workspaces.map (fun ws => ws.mapped.map (fun w => w.toplevel))

theorem bufferRefreshWalk_sid (t : SurfNode) : (bufferRefreshWalk t).sid = t.sid := by
  cases t
  simp [bufferRefreshWalk, SurfNode.sid]

theorem refreshWindow_toplevel (sid : Nat) (w : Window) :
    (refreshWindow sid w).toplevel = w.toplevel := by
  unfold refreshWindow
  split <;> rfl

theorem refreshWindow_sid (sid : Nat) (w : Window) :
    (refreshWindow sid w).tree.sid = w.tree.sid := by
  unfold refreshWindow
  split <;> simp [bufferRefreshWalk_sid]

theorem updateMappedWindow_toplevel (w : Window) :
    (updateMappedWindow w).toplevel = w.toplevel := by
  obtain ⟨wt, wloc, wbbox, ⟨sid, att, sl, ⟨bd, rs, mars⟩, cs⟩, wattrs⟩ := w
  cases rs <;> cases mars <;>
    (simp only [updateMappedWindow, Window.self_update, Window.geometry, SurfNode.data,
      SurfNode.setData]) <;>
    first
      | rfl
      | (split <;> rfl)

theorem updateFirstWindow_toplevels (sid : Nat) (f : Window → Window)
    (hf : ∀ w, (f w).toplevel = w.toplevel) :
    ∀ (l : List Window),
      (updateFirstWindow sid f l).map (fun w => w.toplevel) = l.map (fun w => w.toplevel)
  | [] => rfl
  | w :: ws => by
    unfold updateFirstWindow
    split
    · simp [hf w]
    · simp [updateFirstWindow_toplevels sid f hf ws]

theorem pendingMapStep_not_found (sid : Nat) (st : CommitState)
    (h : findPending st.not_mapped sid = none) : pendingMapStep sid st = st := by
  unfold pendingMapStep
  rw [h]

theorem findPending_map_refresh (sid : Nat) (l : List Window)
    (h : findPending l sid = none) :
    findPending (l.map (refreshWindow sid)) sid = none := by
  rw [findPending, List.find?_eq_none] at h ⊢
  intro x hx
  obtain ⟨w, hw, rfl⟩ := List.mem_map.mp hx
  have := h w hw
  simpa [refreshWindow_sid] using this

theorem mappedToplevels_bufferRefresh (sid : Nat) (sy : Bool) (st : CommitState) :
    mappedToplevels (commitBufferRefresh sid sy st) = mappedToplevels st := by
  unfold commitBufferRefresh
  split
  · rfl
  · simp [mappedToplevels, List.map_map, Function.comp_def, refreshWindow_toplevel]

theorem mappedToplevels_mappedUpdate (sid : Nat) (st : CommitState) :
    mappedToplevels (commitMappedUpdate sid st) = mappedToplevels st := by
  simp only [mappedToplevels, commitMappedUpdate, List.map_map]
  apply List.map_congr_left
  intro ws _
  simp [updateFirstWindow_toplevels sid updateMappedWindow updateMappedWindow_toplevel]

theorem mappedToplevels_grabUpdate (sid : Nat) (st : CommitState) :
    mappedToplevels (commitGrabUpdate sid st) = mappedToplevels st := by
  unfold commitGrabUpdate
  rcases st with ⟨nm, wss, gr⟩
  cases gr
  · rfl
  · simp only []
    split <;> rfl

theorem commitBufferRefresh_not_found (sid : Nat) (sy : Bool) (st : CommitState)
    (h : findPending st.not_mapped sid = none) :
    findPending (commitBufferRefresh sid sy st).not_mapped sid = none := by
  unfold commitBufferRefresh
  split
  · exact h
  · exact findPending_map_refresh sid st.not_mapped h

/-- C1: a commit promotes a pending window exactly when its recomputed bounding box
has non-zero width and height AND, for a shell-protocol (Xdg) toplevel, the
protocol reports configured (a legacy X11 toplevel needs no such ack): the window
is then removed from the pending-map registry and appended to the mapped set of the
active workspace; when the condition fails the registry keeps the (updated) window
and no mapped set changes; a second run of the block after a promotion finds no
pending window and changes nothing (the promotion fires at most once); and a commit
for a surface with no pending window never changes any mapped set (the block is the
sole path into the mapped sets). -/
theorem C1_pending_map_promotion :
    (∀ (win : Window) (ws : Workspace) (wss : List Workspace) (gr : Option Window),
      ((processedPending win).geometry.size.w ≠ 0 ∧
       (processedPending win).geometry.size.h ≠ 0 ∧
       (∀ i, (processedPending win).toplevel = .Xdg i →
         (processedPending win).xdg_attrs.configured = true)) →
      (pendingMapStep win.tree.sid ⟨[win], ws :: wss, gr⟩ =
        ⟨[], ws.map_toplevel (processedPending win) :: wss, gr⟩) ∧
      (pendingMapStep win.tree.sid (pendingMapStep win.tree.sid ⟨[win], ws :: wss, gr⟩) =
        pendingMapStep win.tree.sid ⟨[win], ws :: wss, gr⟩)) ∧
    (∀ (win : Window) (ws : Workspace) (wss : List Workspace) (gr : Option Window),
      ¬ ((processedPending win).geometry.size.w ≠ 0 ∧
         (processedPending win).geometry.size.h ≠ 0 ∧
         (∀ i, (processedPending win).toplevel = .Xdg i →
           (processedPending win).xdg_attrs.configured = true)) →
      pendingMapStep win.tree.sid ⟨[win], ws :: wss, gr⟩ =
        ⟨[processedPending win], ws :: wss, gr⟩) ∧
    (∀ (sid : Nat) (sy : Bool) (st : CommitState),
      findPending st.not_mapped sid = none →
      mappedToplevels (surface_commit sid sy st) = mappedToplevels st) := by
  refine ⟨?_, ?_, ?_⟩
  · intro win ws wss gr h
    obtain ⟨h1, h2, h3⟩ := h
    have hmain : pendingMapStep win.tree.sid ⟨[win], ws :: wss, gr⟩ =
        ⟨[], ws.map_toplevel (processedPending win) :: wss, gr⟩ := by
      simp only [pendingMapStep, findPending, List.find?, beq_self_eq_true,
        replaceFirst, if_pos]
      split
      · simp [removeByToplevel]
      · case isFalse hc =>
          exact absurd
            (by cases htl : (processedPending win).toplevel with
                | Xdg i => simp [h1, h2, htl, h3 i htl]
                | X11 i => simp [h1, h2, htl])
            hc
    refine ⟨hmain, ?_⟩
    rw [hmain]
    exact pendingMapStep_not_found _ _ rfl
  · intro win ws wss gr h
    simp only [pendingMapStep, findPending, List.find?, beq_self_eq_true,
      replaceFirst, if_pos]
    split
    · case isTrue hc =>
        exfalso
        apply h
        simp only [Bool.and_eq_true, decide_eq_true_eq] at hc
        obtain ⟨⟨ha, hb2⟩, hc2⟩ := hc
        refine ⟨ha, hb2, ?_⟩
        intro i hi
        rw [hi] at hc2
        exact hc2
    · rfl
  · intro sid sy st h
    unfold surface_commit
    rw [mappedToplevels_grabUpdate, mappedToplevels_mappedUpdate,
      pendingMapStep_not_found sid _ (commitBufferRefresh_not_found sid sy st h),
      mappedToplevels_bufferRefresh]

/-- A pending Xdg window with a mapped 10 x 10 buffer, configured and already sent
its initial configure. -/
def exPendingWindow : Window :=
  { toplevel := .Xdg 0
    location := ⟨0, 0⟩
    bbox := ⟨⟨0, 0⟩, ⟨0, 0⟩⟩
    tree := .mk 0 none ⟨0, 0⟩ bufferedSurfaceData []
    xdg_attrs := ⟨true, true⟩ }

/-- Witness for C1 at a concrete pending window: the promotion condition holds, the
commit block maps it into the active (empty) workspace emptying the registry, and a
commit for a surface with no pending window leaves mapped sets untouched. -/
theorem C1_pending_map_promotion_witness :
    ((processedPending exPendingWindow).geometry.size.w ≠ 0 ∧
     (processedPending exPendingWindow).geometry.size.h ≠ 0 ∧
     (∀ i, (processedPending exPendingWindow).toplevel = .Xdg i →
       (processedPending exPendingWindow).xdg_attrs.configured = true)) ∧
    (pendingMapStep exPendingWindow.tree.sid ⟨[exPendingWindow], ⟨[]⟩ :: [], none⟩ =
      ⟨[], Workspace.map_toplevel ⟨[]⟩ (processedPending exPendingWindow) :: [], none⟩) ∧
    (findPending ([] : List Window) 9 = none) ∧
    (mappedToplevels (surface_commit 9 false ⟨[], [⟨[exPendingWindow]⟩], none⟩) =
      mappedToplevels ⟨[], [⟨[exPendingWindow]⟩], none⟩) := by
  have hcond : (processedPending exPendingWindow).geometry.size.w ≠ 0 ∧
      (processedPending exPendingWindow).geometry.size.h ≠ 0 ∧
      (∀ i, (processedPending exPendingWindow).toplevel = .Xdg i →
        (processedPending exPendingWindow).xdg_attrs.configured = true) := by
    refine ⟨by decide, by decide, ?_⟩
    intro i _
    decide
  exact ⟨hcond,
    (C1_pending_map_promotion.1 exPendingWindow ⟨[]⟩ [] none hcond).1,
    rfl,
    C1_pending_map_promotion.2.2 9 false ⟨[], [⟨[exPendingWindow]⟩], none⟩ rfl⟩

end Anodium
